import Mathlib

/-!
Verification of the configuration-synthesis and installation orchestrator in
`installer.py` (namespace `Installer`) and `advanced-setup.py` (namespace
`Advanced`).  Python dictionaries holding JSON data are embedded as
association lists of `JVal`; subprocess calls, the environment, dotfile
contents and the wall clock are explicit inputs; filesystem effects are
recorded as an explicit action trace.
-/

set_option autoImplicit false

/-- A JSON value as produced by `json.dump`: Python `None` serializes to
`null`, dictionaries keep insertion order. -/
inductive JVal where
  | str (s : String)
  | null
  | arr (xs : List JVal)
  | obj (fields : List (String × JVal))

/-- First binding for a key in an association list (Python dict access). -/
def jlook (k : String) : List (String × JVal) → Option JVal
  | [] => none
  | (k₂, v) :: rest => if k₂ = k then some v else jlook k rest

/-- Follow a path of object keys into a JSON value. -/
def jget : JVal → List String → Option JVal
  | v, [] => some v
  | JVal.obj fs, k :: ks =>
    match jlook k fs with
    | some v => jget v ks
    | none => none
  | _, _ :: _ => none

/-- Extract a JSON string. -/
def jStr : Option JVal → Option String
  | some (JVal.str s) => some s
  | _ => none

/-- Python dict assignment `d[k] = v`: an existing key keeps its insertion
position and gets the new value, a new key is appended at the end. -/
def dinsert (k : String) (v : JVal) : List (String × JVal) → List (String × JVal)
  | [] => [(k, v)]
  | (k₂, v₂) :: rest => if k₂ = k then (k₂, v) :: rest else (k₂, v₂) :: dinsert k v rest

/-- Splitting a character list at a separator, with Python `str.split`
semantics: the empty string yields one empty component. -/
def splitOnChar (c : Char) : List Char → List (List Char)
  | [] => [[]]
  | x :: xs =>
    let r := splitOnChar c xs
    if x = c then [] :: r
    else
      match r with
      | [] => [[x]]
      | y :: ys => (x :: y) :: ys

/-- The keys of the `mcpServers` object of a generated configuration, in
insertion order. -/
def entryNames (j : JVal) : List String :=
  match jget j ["mcpServers"] with
  | some (JVal.obj fs) => fs.map Prod.fst
  | _ => []

namespace Installer

/-- The fixed server catalog of `MCPInstaller.install_servers`. -/
def servers : List String :=
  ["@modelcontextprotocol/server-filesystem",
   "@modelcontextprotocol/server-github",
   "@modelcontextprotocol/server-brave-search",
   "@modelcontextprotocol/server-memory"]

/-- `server.split('/')[-1]`. -/
def lastComp (s : String) : String :=
  String.mk ((splitOnChar (Char.ofNat 47) s.data).getLastD s.data)

/-- The error-level message logged for a failed module install. -/
def failMsg (s : String) : String := "Failed to install " ++ s

/-- The install loop of `install_servers`: one `npm install` per catalog
entry, collecting the short names of the successes and the error messages of
the failures.  `ok pkg` is the `returncode == 0` outcome of the subprocess
for package `pkg`. -/
def install_loop (ok : String → Bool) : List String → List String × List String
  | [] => ([], [])
  | s :: rest =>
    let r := install_loop ok rest
    if ok s then (lastComp s :: r.1, r.2) else (r.1, failMsg s :: r.2)

def mcp_dir (home : String) : String := home ++ "/.mcp-servers"

def workspace (home : String) : String := home ++ "/claude-mcp-workspace"

-- macOS and Windows use a different base directory for the Claude
-- configuration; the directory choice does not affect any property below.
def claude_config_dir (home : String) : String := home ++ "/.config/claude"

def claude_config (home : String) : String :=
  claude_config_dir home ++ "/claude_desktop_config.json"

/-- The backup destination of `backup_config`: the only run-varying input is
`t = int(time.time())`, the wall clock truncated to whole seconds. -/
def backup_path (home : String) (t : Nat) : String :=
  claude_config_dir home ++ "/claude_config_backup_" ++ toString t ++ ".json"

/-- `detect_api_keys`: `os.environ.get(var, default)` substitutes the
default only when the variable is absent from the environment. -/
def detect_api_keys (env : String → Option String) : String × String :=
  ((env "GITHUB_TOKEN").getD "REPLACE_WITH_GITHUB_TOKEN",
   (env "BRAVE_API_KEY").getD "REPLACE_WITH_BRAVE_KEY")

def fsEntry (home : String) : JVal :=
  JVal.obj
    [("command", JVal.str "node"),
     ("args", JVal.arr
        [JVal.str (mcp_dir home ++ "/node_modules/@modelcontextprotocol/server-filesystem/dist/index.js"),
         JVal.str (workspace home)])]

def ghEntry (gh : String) : JVal :=
  JVal.obj
    [("command", JVal.str "npx"),
     ("args", JVal.arr [JVal.str "-y", JVal.str "@modelcontextprotocol/server-github"]),
     ("env", JVal.obj [("GITHUB_PERSONAL_ACCESS_TOKEN", JVal.str gh)])]

def braveEntry (bk : String) : JVal :=
  JVal.obj
    [("command", JVal.str "npx"),
     ("args", JVal.arr [JVal.str "-y", JVal.str "@modelcontextprotocol/server-brave-search"]),
     ("env", JVal.obj [("BRAVE_API_KEY", JVal.str bk)])]

def memEntry (home : String) : JVal :=
  JVal.obj
    [("command", JVal.str "node"),
     ("args", JVal.arr
        [JVal.str (mcp_dir home ++ "/node_modules/@modelcontextprotocol/server-memory/dist/index.js")])]

/-- `generate_config`: the four literal dict keys are pairwise distinct, so
the successive dict assignments amount to appending the entries in the fixed
source order. -/
def generate_config (env : String → Option String) (home : String)
    (installed : List String) : JVal :=
  let keys := detect_api_keys env
  let f1 := if installed.contains "server-filesystem" then [("filesystem", fsEntry home)] else []
  let f2 := if installed.contains "server-github" then [("github", ghEntry keys.1)] else []
  let f3 := if installed.contains "server-brave-search" then [("brave-search", braveEntry keys.2)] else []
  let f4 := if installed.contains "server-memory" then [("memory", memEntry home)] else []
  JVal.obj [("mcpServers", JVal.obj (f1 ++ f2 ++ f3 ++ f4))]

/-- Outcome of the `node --version` subprocess in `check_node`.  The call
passes no `timeout` argument, so a timeout outcome does not exist for it;
only `FileNotFoundError` is caught. -/
inductive NodeRun where
  | completed (rc : Int)
  | fileNotFound
  | otherError

/-- The `timeout` argument of the `subprocess.run` call in `check_node`:
the source passes none. -/
def check_node_timeout : Option Nat := none

/-- `check_node`: `.error` marks an exception propagating to the caller. -/
def check_node : NodeRun → Except String Bool
  | NodeRun.completed rc => Except.ok (rc == 0)
  | NodeRun.fileNotFound => Except.ok false
  | NodeRun.otherError => Except.error "uncaught exception"

/-- `install_servers` as a state transformer on the process working
directory.  The body runs after `os.chdir(self.mcp_dir)` inside `try:`; the
`finally:` clause executes `os.chdir(original_dir)` on the normal exit and on
the exceptional exit alike, so the returned directory is `cwd0` in both
branches.  `npmPresent = false` is the `FileNotFoundError` raised by the
first `npm` subprocess when the executable is missing; it is not caught in
`install_servers`. -/
def install_servers_st (ok : String → Bool) (npmPresent : Bool)
    (home cwd0 : String) : Except String (List String) × String :=
  let original_dir := cwd0
  let _inside := mcp_dir home
  let body : Except String (List String) :=
    if npmPresent then Except.ok (install_loop ok servers).1
    else Except.error "FileNotFoundError"
  (body, original_dir)

/-- The run-varying inputs of one execution of `MCPInstaller.run`:
the probe outcome, the pre-existing files, the wall clock second, the
per-package `npm install` outcomes and the process environment. -/
structure World where
  nodeOk : Bool
  configExists : Bool
  pkgJsonExists : Bool
  now : Nat
  ok : String → Bool
  env : String → Option String
  home : String

end Installer

/-- A filesystem or subprocess effect performed by `MCPInstaller.run`, in
program order. -/
inductive FsAction where
  | copyFile (src dst : String)
  | mkdirP (path : String)
  | subproc (cmd : List String)
  | writeFile (path : String) (content : JVal)
  | writeText (path : String) (text : String)

namespace Installer

/-- The error-level message of the missing-runtime gate. -/
def nodeErr : String := "Node.js is required. Please install from https://nodejs.org"

/-- The error-level message of the empty-install gate. -/
def noServersErr : String := "No servers installed successfully"

def testText : String :=
  "MCP Test Commands:\n\n1. List files in workspace\n2. Search for \"AI news\"  \n3. Remember: \"Setup complete\"\n\nIf these work, your MCP is ready!\n"

/-- `backup_config`: a byte-for-byte copy (`shutil.copy2`) of the existing
descriptor, made only when one exists. -/
def backup_actions (w : World) : List FsAction :=
  if w.configExists then
    [FsAction.copyFile (claude_config w.home) (backup_path w.home w.now)]
  else []

/-- The effects of `install_servers`: create the module directory,
initialize the package manifest if absent, one `npm install` per catalog
entry. -/
def install_actions (w : World) : List FsAction :=
  [FsAction.mkdirP (mcp_dir w.home)] ++
  (if w.pkgJsonExists then [] else [FsAction.subproc ["npm", "init", "-y"]]) ++
  servers.map (fun s => FsAction.subproc ["npm", "install", s])

/-- `MCPInstaller.run`: returns `len(self.errors) == 0` on the full path,
`False` at the two early-return gates, together with the effect trace and
the error-level messages recorded. -/
def run (w : World) : Bool × List FsAction × List String :=
  if w.nodeOk then
    let acts0 := backup_actions w ++ install_actions w
    let inst := install_loop w.ok servers
    if inst.1.isEmpty then
      (false, acts0, inst.2 ++ [noServersErr])
    else
      let cfg := generate_config w.env w.home inst.1
      (inst.2.isEmpty,
       acts0 ++
         [FsAction.mkdirP (claude_config_dir w.home),
          FsAction.writeFile (claude_config w.home) cfg,
          FsAction.mkdirP (workspace w.home),
          FsAction.writeText (workspace w.home ++ "/test-mcp.txt") testText],
       inst.2)
  else (false, [], [nodeErr])

/-- `main`: `return 0 if success else 1`. -/
def exitCode (w : World) : Nat := if (run w).1 then 0 else 1

end Installer

namespace Advanced

/-- Outcome of one `subprocess.run` call in `MCPQuickstart.run_command`. -/
inductive Proc where
  | completed (rc : Int) (out : String)
  | timedOut
  | launchFailure
  | otherError

/-- The `timeout` argument of the `subprocess.run` call in `run_command`:
the source passes 30 seconds. -/
def run_command_timeout : Option Nat := some 30

/-- `run_command`: the `except Exception` clause turns every raised
exception (timeout included) into `(False, "")`; a completed process yields
`(returncode == 0, stdout)`. -/
def run_command : Proc → Bool × String
  | Proc.completed rc out => (rc == 0, out)
  | Proc.timedOut => (false, "")
  | Proc.launchFailure => (false, "")
  | Proc.otherError => (false, "")

/-- The four logical credential keys of `detect_api_keys`. -/
inductive CKey where
  | github_token
  | brave_key
  | openai_key
  | anthropic_key
deriving DecidableEq

/-- The `keys` dictionary: every key is always present, its value is
`None` (`none`) until some source resolves it. -/
structure Keys where
  github_token : Option String
  brave_key : Option String
  openai_key : Option String
  anthropic_key : Option String

def Keys.get (k : Keys) : CKey → Option String
  | CKey.github_token => k.github_token
  | CKey.brave_key => k.brave_key
  | CKey.openai_key => k.openai_key
  | CKey.anthropic_key => k.anthropic_key

def Keys.set (k : Keys) : CKey → Option String → Keys
  | CKey.github_token, v => ⟨v, k.brave_key, k.openai_key, k.anthropic_key⟩
  | CKey.brave_key, v => ⟨k.github_token, v, k.openai_key, k.anthropic_key⟩
  | CKey.openai_key, v => ⟨k.github_token, k.brave_key, v, k.anthropic_key⟩
  | CKey.anthropic_key, v => ⟨k.github_token, k.brave_key, k.openai_key, v⟩

/-- The `env_mappings` alias table, in source order. -/
def envAliases : CKey → List String
  | CKey.github_token => ["GITHUB_TOKEN", "GH_TOKEN", "GITHUB_PERSONAL_ACCESS_TOKEN"]
  | CKey.brave_key => ["BRAVE_API_KEY", "BRAVE_SEARCH_KEY"]
  | CKey.openai_key => ["OPENAI_API_KEY"]
  | CKey.anthropic_key => ["ANTHROPIC_API_KEY", "CLAUDE_API_KEY"]

/-- Python truthiness of an `Optional[str]`: `None` and `""` are falsy. -/
def truthy : Option String → Bool
  | some s => s ≠ ""
  | none => false

/-- The alias loop: `if os.environ.get(env_var): keys[key] = ...; break`.
A variable set to the empty string is falsy and does not stop the loop. -/
def envFirst (env : String → Option String) : List String → Option String
  | [] => none
  | a :: rest =>
    match env a with
    | some v => if v ≠ "" then some v else envFirst env rest
    | none => envFirst env rest

/-- Python `\s` on the characters occurring in text files. -/
def nonWS (c : Char) : Bool :=
  !(c = ' ' || c = Char.ofNat 9 || c = Char.ofNat 10 || c = Char.ofNat 11 ||
    c = Char.ofNat 12 || c = Char.ofNat 13)

/-- One position of `re.search` for a pattern
`(?:A1|A2)=([^\s\n]+)`: the alternatives are tried left to right and the
capture group needs at least one non-whitespace character. -/
def matchAt (alts : List String) (cs : List Char) : Option (List Char) :=
  match alts with
  | [] => none
  | a :: rest =>
    let pat := a.data
    if pat.isPrefixOf cs then
      let captured := (cs.drop pat.length).takeWhile nonWS
      if captured.isEmpty then matchAt rest cs else some captured
    else matchAt rest cs

/-- `re.search`: leftmost match wins. -/
def searchFrom (alts : List String) : List Char → Option (List Char)
  | [] => none
  | c :: cs =>
    match matchAt alts (c :: cs) with
    | some v => some v
    | none => searchFrom alts cs

def isQuoteChar (c : Char) : Bool := c = Char.ofNat 34 || c = Char.ofNat 39

/-- Python `str.strip(chars)`: drop the given characters from both ends. -/
def stripEnds (p : Char → Bool) (cs : List Char) : List Char :=
  ((cs.dropWhile p).reverse.dropWhile p).reverse

/-- The dotfile scan for one key: `re.search(pattern, content)`, then
`match.group(1).strip('"\x27')`. -/
def findKV (alts : List String) (text : String) : Option String :=
  (searchFrom alts text.data).map (fun cs => String.mk (stripEnds isQuoteChar cs))

/-- Python `str.strip()`. -/
def pyStripWS (s : String) : String :=
  String.mk (stripEnds (fun c => !nonWS c) s.data)

/-- Stage 1 of `detect_api_keys`: the environment-variable aliases. -/
def envStage (env : String → Option String) : Keys :=
  ⟨envFirst env (envAliases CKey.github_token),
   envFirst env (envAliases CKey.brave_key),
   envFirst env (envAliases CKey.openai_key),
   envFirst env (envAliases CKey.anthropic_key)⟩

/-- Stage 2: `git config --global github.token`, consulted only when the
github key is still falsy, taken only when the subprocess succeeded and the
stripped output is non-empty. -/
def gitStage (gitProc : Proc) (k : Keys) : Keys :=
  if truthy k.github_token then k
  else
    let r := run_command gitProc
    if r.1 && pyStripWS r.2 ≠ "" then
      ⟨some (pyStripWS r.2), k.brave_key, k.openai_key, k.anthropic_key⟩
    else k

/-- The `patterns` table of the dotfile scan, in source order.  The
anthropic key has no pattern. -/
def dotPatterns : List (CKey × List String) :=
  [(CKey.github_token, ["GITHUB_TOKEN=", "GH_TOKEN="]),
   (CKey.brave_key, ["BRAVE_API_KEY="]),
   (CKey.openai_key, ["OPENAI_API_KEY="])]

/-- One pattern applied to one file: only keys that are still falsy are
searched for. -/
def applyPattern (text : String) (k : Keys) (entry : CKey × List String) : Keys :=
  if truthy (k.get entry.1) then k
  else
    match findKV entry.2 text with
    | some v => k.set entry.1 (some v)
    | none => k

/-- One config file: a missing or unreadable file (`except: pass`) changes
nothing. -/
def scanFile (k : Keys) (content : Option String) : Keys :=
  match content with
  | none => k
  | some text => dotPatterns.foldl (applyPattern text) k

/-- `MCPQuickstart.detect_api_keys`.  `bashrc`, `zshrc`, `envf`, `ghhosts`
are the readable contents of the four fixed config files, `none` when the
file is absent or unreadable. -/
def detect_api_keys (env : String → Option String) (gitProc : Proc)
    (bashrc zshrc envf ghhosts : Option String) : Keys :=
  let k0 := envStage env
  let k1 := gitStage gitProc k0
  [bashrc, zshrc, envf, ghhosts].foldl scanFile k1

/-- One entry of the `servers` catalog of `install_mcp_servers`. -/
structure AdvServer where
  name : String
  package : String
  required : Bool

/-- The fixed catalog of `install_mcp_servers`, in source order. -/
def servers : List AdvServer :=
  [⟨"filesystem", "@modelcontextprotocol/server-filesystem", true⟩,
   ⟨"github", "@modelcontextprotocol/server-github", true⟩,
   ⟨"brave-search", "@modelcontextprotocol/server-brave-search", true⟩,
   ⟨"memory", "@modelcontextprotocol/server-memory", true⟩,
   ⟨"puppeteer", "@modelcontextprotocol/server-puppeteer", false⟩,
   ⟨"sqlite", "@modelcontextprotocol/server-sqlite", false⟩]

/-- The install loop: the `installed` list receives the names of the
successes only; a failure is logged at error level when `required` and at
warning level otherwise, in either case without an entry in the result. -/
def adv_install_loop (ok : String → Bool) : List AdvServer → List String
  | [] => []
  | s :: rest =>
    if ok s.package then s.name :: adv_install_loop ok rest
    else adv_install_loop ok rest

/-- `install_mcp_servers` as a state transformer on the working directory:
`os.chdir(mcp_dir)` runs before the loop and no code path restores the
caller's directory, so the function exits with the directory still set to
`mcp_dir`.  `cwd0` is the caller's directory on entry. -/
def install_mcp_servers (ok : String → Bool) (home cwd0 : String) :
    List String × String :=
  let _caller := cwd0
  let mcpDir := home ++ "/.mcp-servers"
  (adv_install_loop ok servers, mcpDir)

/-- Python `dict.get(k, default)` on `Dict[str, Optional[str]]`: a present
key returns its stored value, `None` included; only an absent key yields the
default.  `detect_api_keys` stores every key, so `store` is always
`some _` downstream. -/
def dictGetOpt (store : Option (Option String)) (dflt : String) : Option String :=
  match store with
  | some v => v
  | none => some dflt

/-- A resolved credential as serialized by `json.dump`. -/
def jOfOpt : Option String → JVal
  | some s => JVal.str s
  | none => JVal.null

/-- The `server_configs` template table of `generate_claude_config`, in
source order.  `puppeteer` has no template. -/
def server_configs (mcp home : String) (keys : Keys) : List (String × JVal) :=
  [("filesystem", JVal.obj
      [("command", JVal.str "node"),
       ("args", JVal.arr
          [JVal.str (mcp ++ "/node_modules/@modelcontextprotocol/server-filesystem/dist/index.js"),
           JVal.str (home ++ "/claude-mcp-workspace")]),
       ("env", JVal.obj [])]),
   ("github", JVal.obj
      [("command", JVal.str "npx"),
       ("args", JVal.arr [JVal.str "-y", JVal.str "@modelcontextprotocol/server-github"]),
       ("env", JVal.obj
          [("GITHUB_PERSONAL_ACCESS_TOKEN",
            jOfOpt (dictGetOpt (some keys.github_token) "PLACEHOLDER_GITHUB_TOKEN"))])]),
   ("brave-search", JVal.obj
      [("command", JVal.str "npx"),
       ("args", JVal.arr [JVal.str "-y", JVal.str "@modelcontextprotocol/server-brave-search"]),
       ("env", JVal.obj
          [("BRAVE_API_KEY",
            jOfOpt (dictGetOpt (some keys.brave_key) "PLACEHOLDER_BRAVE_KEY"))])]),
   ("memory", JVal.obj
      [("command", JVal.str "node"),
       ("args", JVal.arr
          [JVal.str (mcp ++ "/node_modules/@modelcontextprotocol/server-memory/dist/index.js")]),
       ("env", JVal.obj [])]),
   ("sqlite", JVal.obj
      [("command", JVal.str "node"),
       ("args", JVal.arr
          [JVal.str (mcp ++ "/node_modules/@modelcontextprotocol/server-sqlite/dist/index.js"),
           JVal.str (home ++ "/claude-mcp-workspace/data.db")]),
       ("env", JVal.obj [])])]

/-- `Path(project).name`: the last non-empty path component. -/
def pathName (p : String) : String :=
  String.mk (((splitOnChar (Char.ofNat 47) p.data).filter
    (fun cs => !cs.isEmpty)).getLastD [])

/-- The per-project filesystem launch entry. -/
def projEntry (mcp p : String) : JVal :=
  JVal.obj
    [("command", JVal.str "node"),
     ("args", JVal.arr
        [JVal.str (mcp ++ "/node_modules/@modelcontextprotocol/server-filesystem/dist/index.js"),
         JVal.str p]),
     ("env", JVal.obj [])]

/-- The loop `for server in installed_servers: if server in server_configs:
config["mcpServers"][server] = server_configs[server]`. -/
def addInstalled (cfgs : List (String × JVal)) :
    List String → List (String × JVal) → List (String × JVal)
  | [], acc => acc
  | s :: rest, acc =>
    match jlook s cfgs with
    | some c => addInstalled cfgs rest (dinsert s c acc)
    | none => addInstalled cfgs rest acc

/-- The loop over `projects[:3]`. -/
def addProjects (mcp : String) :
    List String → List (String × JVal) → List (String × JVal)
  | [], acc => acc
  | p :: rest, acc =>
    addProjects mcp rest (dinsert ("project-" ++ pathName p) (projEntry mcp p) acc)

/-- `MCPQuickstart.generate_claude_config`. -/
def generate_claude_config (installed : List String) (mcp home : String)
    (projects : List String) (keys : Keys) : JVal :=
  let cfgs := server_configs mcp home keys
  let base := addInstalled cfgs installed []
  let entries :=
    if (!projects.isEmpty) && installed.contains "filesystem" then
      addProjects mcp (projects.take 3) base
    else base
  JVal.obj [("mcpServers", JVal.obj entries)]

def claude_config_dir (home : String) : String := home ++ "/.config/claude"

def config_file (home : String) : String :=
  claude_config_dir home ++ "/claude_desktop_config.json"

/-- The backup destination of `backup_existing_config`:
`config_file.with_suffix(f".backup.{int(hashlib.md5(str(config_file).encode()).hexdigest()[:8], 16)}")`.
`md5trunc` stands for `int(md5(...)[:8], 16)`; its argument in the source is
the configuration path itself, so nothing about the run (time, contents,
process) enters the name. -/
def adv_backup_path (home : String) (md5trunc : String → Nat) : String :=
  claude_config_dir home ++ "/claude_desktop_config.backup." ++
    toString (md5trunc (config_file home))

end Advanced

/-- Recognizes the descriptor-write effect. -/
def isWriteFile : FsAction → Bool
  | FsAction.writeFile _ _ => true
  | _ => false

/-- A concrete run of `installer.py`: Node.js present, no pre-existing
descriptor, manifest present, github install fails, everything else
succeeds. -/
def wC5 : Installer.World :=
  ⟨true, false, true, 0,
   fun s => !(s == "@modelcontextprotocol/server-github"), fun _ => none, "/h"⟩

/-- A concrete run of `installer.py`: Node.js present, a descriptor exists,
no manifest, every module install fails. -/
def wC10 : Installer.World :=
  ⟨true, true, false, 1700000000, fun _ => false, fun _ => none, "/h"⟩

section InstallerLemmas

theorem install_loop_fst (ok : String → Bool) :
    ∀ l : List String, (Installer.install_loop ok l).1 = (l.filter ok).map Installer.lastComp := by
  intro l
  induction l with
  | nil => rfl
  | cons s rest ih =>
    by_cases h : ok s <;> simp [Installer.install_loop, List.filter_cons, h, ih]

theorem install_loop_snd (ok : String → Bool) :
    ∀ l : List String,
      (Installer.install_loop ok l).2 = (l.filter (fun s => !(ok s))).map Installer.failMsg := by
  intro l
  induction l with
  | nil => rfl
  | cons s rest ih =>
    by_cases h : ok s <;> simp [Installer.install_loop, List.filter_cons, h, ih]

end InstallerLemmas

section AdvancedLemmas

open Advanced

theorem envFirst_ne_empty (env : String → Option String) :
    ∀ l : List String, ∀ v : String, envFirst env l = some v → v ≠ "" := by
  intro l
  induction l with
  | nil => intro v h; exact absurd h (by simp [envFirst])
  | cons a rest ih =>
    intro v h
    simp only [envFirst] at h
    cases ha : env a with
    | none => rw [ha] at h; exact ih v h
    | some u =>
      rw [ha] at h
      by_cases hu : u = ""
      · simp [hu] at h; exact ih v h
      · simp [hu] at h; simpa [← h] using hu

theorem envStage_get (env : String → Option String) (k : CKey) :
    (envStage env).get k = envFirst env (envAliases k) := by
  cases k <;> rfl

theorem truthy_some {v : String} (hv : v ≠ "") : truthy (some v) = true := by
  simp [truthy, hv]

theorem Keys.get_set_ne (K : Keys) {k₁ k₂ : CKey} (h : k₁ ≠ k₂) (v : Option String) :
    (K.set k₁ v).get k₂ = K.get k₂ := by
  cases k₁ <;> cases k₂ <;> simp_all [Keys.set, Keys.get]

theorem gitStage_get_truthy (g : Proc) (K : Keys) (k : CKey)
    (h : truthy (K.get k) = true) :
    (gitStage g K).get k = K.get k := by
  cases k <;> simp only [gitStage, Keys.get] at h ⊢ <;> split_ifs <;>
    simp_all [Keys.get]

theorem applyPattern_get_truthy (text : String) (K : Keys)
    (e : CKey × List String) (k : CKey) (h : truthy (K.get k) = true) :
    (applyPattern text K e).get k = K.get k := by
  unfold applyPattern
  by_cases he : truthy (K.get e.1) = true
  · simp [he]
  · have hne : e.1 ≠ k := by
      intro hk; rw [hk] at he; exact he h
    cases hf : findKV e.2 text with
    | none => simp [he, hf]
    | some v => simp [he, hf, Keys.get_set_ne K hne]

theorem foldPatterns_get_truthy (text : String) (k : CKey) :
    ∀ (ps : List (CKey × List String)) (K : Keys), truthy (K.get k) = true →
      (ps.foldl (applyPattern text) K).get k = K.get k := by
  intro ps
  induction ps with
  | nil => intro K _; rfl
  | cons e rest ih =>
    intro K h
    have h₂ := applyPattern_get_truthy text K e k h
    rw [List.foldl_cons, ih _ (by rw [h₂]; exact h), h₂]

theorem scanFile_get_truthy (K : Keys) (c : Option String) (k : CKey)
    (h : truthy (K.get k) = true) :
    (scanFile K c).get k = K.get k := by
  cases c with
  | none => rfl
  | some text => exact foldPatterns_get_truthy text k dotPatterns K h

theorem foldFiles_get_truthy (k : CKey) :
    ∀ (fs : List (Option String)) (K : Keys), truthy (K.get k) = true →
      (fs.foldl scanFile K).get k = K.get k := by
  intro fs
  induction fs with
  | nil => intro K _; rfl
  | cons c rest ih =>
    intro K h
    have h₂ := scanFile_get_truthy K c k h
    rw [List.foldl_cons, ih _ (by rw [h₂]; exact h), h₂]

theorem dinsert_append (k : String) (v : JVal) :
    ∀ acc : List (String × JVal), k ∉ acc.map Prod.fst →
      dinsert k v acc = acc ++ [(k, v)] := by
  intro acc
  induction acc with
  | nil => intro _; rfl
  | cons p rest ih =>
    intro h
    cases p with
    | mk k₂ v₂ =>
      simp only [List.map_cons, List.mem_cons] at h
      push_neg at h
      simp only [dinsert]
      rw [if_neg (fun he => h.1 he.symm), ih h.2]
      simp

theorem addInstalled_map (cfgs : List (String × JVal)) :
    ∀ (installed : List String) (acc : List (String × JVal)),
      (acc.map Prod.fst ++ installed.filter (fun s => (jlook s cfgs).isSome)).Nodup →
      (addInstalled cfgs installed acc).map Prod.fst =
        acc.map Prod.fst ++ installed.filter (fun s => (jlook s cfgs).isSome) := by
  intro installed
  induction installed with
  | nil => intro acc _; simp [addInstalled]
  | cons s rest ih =>
    intro acc hnd
    cases hl : jlook s cfgs with
    | none =>
      simp only [addInstalled, hl]
      have hf : (List.filter (fun s => (jlook s cfgs).isSome) (s :: rest)) =
          List.filter (fun s => (jlook s cfgs).isSome) rest := by
        simp [List.filter_cons, hl]
      rw [hf] at hnd
      rw [ih acc hnd, hf]
    | some c =>
      simp only [addInstalled, hl]
      have hf : (List.filter (fun s => (jlook s cfgs).isSome) (s :: rest)) =
          s :: List.filter (fun s => (jlook s cfgs).isSome) rest := by
        simp [List.filter_cons, hl]
      rw [hf] at hnd
      have hmem : s ∉ acc.map Prod.fst := by
        have := List.disjoint_of_nodup_append hnd
        exact fun hs => this hs (List.mem_cons_self s _)
      have hacc : (dinsert s c acc).map Prod.fst = acc.map Prod.fst ++ [s] := by
        rw [dinsert_append s c acc hmem]; simp
      have hnd₂ : ((dinsert s c acc).map Prod.fst ++
          rest.filter (fun s => (jlook s cfgs).isSome)).Nodup := by
        rw [hacc, List.append_assoc, List.singleton_append]
        exact hnd
      rw [ih (dinsert s c acc) hnd₂, hacc, hf]
      simp

theorem addProjects_map (mcp : String) :
    ∀ (ps : List String) (acc : List (String × JVal)),
      (acc.map Prod.fst ++ ps.map (fun p => "project-" ++ pathName p)).Nodup →
      (addProjects mcp ps acc).map Prod.fst =
        acc.map Prod.fst ++ ps.map (fun p => "project-" ++ pathName p) := by
  intro ps
  induction ps with
  | nil => intro acc _; simp [addProjects]
  | cons p rest ih =>
    intro acc hnd
    simp only [addProjects, List.map_cons] at hnd ⊢
    have hmem : ("project-" ++ pathName p) ∉ acc.map Prod.fst := by
      have := List.disjoint_of_nodup_append hnd
      exact fun hs => this hs (List.mem_cons_self _ _)
    have hacc : (dinsert ("project-" ++ pathName p) (projEntry mcp p) acc).map Prod.fst =
        acc.map Prod.fst ++ ["project-" ++ pathName p] :=
      by rw [dinsert_append _ _ acc hmem]; simp
    have hnd₂ : ((dinsert ("project-" ++ pathName p) (projEntry mcp p) acc).map Prod.fst ++
        rest.map (fun p => "project-" ++ pathName p)).Nodup := by
      rw [hacc, List.append_assoc, List.singleton_append]
      exact hnd
    rw [ih _ hnd₂, hacc]
    simp

theorem adv_install_loop_eq (ok : String → Bool) :
    ∀ l : List AdvServer,
      adv_install_loop ok l = (l.filter (fun s => ok s.package)).map (fun s => s.name) := by
  intro l
  induction l with
  | nil => rfl
  | cons s rest ih =>
    by_cases h : ok s.package <;> simp [adv_install_loop, List.filter_cons, h, ih]

end AdvancedLemmas

/-! ## The claims -/

/-- C1: the spec requires the backup name to be unique across repeated runs
(two runs within the same clock-resolution window must not collide).  In
`installer.py` the name is a pure function of the wall-clock second alone, so
two runs within the same second produce the identical path and the second
silently overwrites the first run's backup; in `advanced-setup.py` the name
is a pure function of the configuration path alone (`md5` of the path
string, not of the content, and no timestamp), so any two runs ever collide.
This theorem evaluates both backup names to exhibit that no run-varying
input besides the clock second (installer) or nothing at all (advanced)
enters the name. -/
theorem C1_backup_name_collision :
    Installer.backup_path "/home/u" 1700000000 =
      "/home/u/.config/claude/claude_config_backup_1700000000.json" ∧
    ∀ md5trunc : String → Nat,
      Advanced.adv_backup_path "/home/u" md5trunc =
        Advanced.claude_config_dir "/home/u" ++ "/claude_desktop_config.backup." ++
          toString (md5trunc (Advanced.config_file "/home/u")) :=
  ⟨by decide, fun _ => rfl⟩

/-- C2 (counterexample): `install_mcp_servers` in `advanced-setup.py`
executes `os.chdir(mcp_dir)` and never restores the caller's directory, so a
run entered with cwd `/start` exits with a different cwd. -/
theorem C2_cwd_not_restored :
    (Advanced.install_mcp_servers (fun _ => true) "/home/u" "/start").2 ≠ "/start" := by
  decide

/-- C2 (amended): the simplified installer (`installer.py`) restores the
caller's working directory on every exit path, the exceptional one included;
the advanced installer (`advanced-setup.py`) exits with the working
directory still set to the module directory. -/
theorem C2_cwd_amended :
    (∀ (ok : String → Bool) (npm : Bool) (home cwd0 : String),
      (Installer.install_servers_st ok npm home cwd0).2 = cwd0) ∧
    (∀ (ok : String → Bool) (home cwd0 : String),
      (Advanced.install_mcp_servers ok home cwd0).2 = home ++ "/.mcp-servers") :=
  ⟨fun _ _ _ _ => rfl, fun _ _ _ => rfl⟩

/-- C4 (counterexample): with the github install failing and the other three
succeeding, the sequence returned by the install loop of `installer.py` has
three entries for a four-module catalog, and the failed module has no entry
at all — not one result per input module. -/
theorem C4_missing_result :
    (Installer.install_loop
        (fun s => !(s == "@modelcontextprotocol/server-github")) Installer.servers).1 =
      ["server-filesystem", "server-brave-search", "server-memory"] ∧
    (Installer.install_loop
        (fun s => !(s == "@modelcontextprotocol/server-github")) Installer.servers).1.length = 3 ∧
    Installer.servers.length = 4 := by
  refine ⟨?_, ?_, rfl⟩ <;> decide

/-- C4 (amended): both installers return exactly one entry per
*successfully installed* module, in catalog order; failed modules are absent
from the returned sequence and are recorded as error messages instead. -/
theorem C4_results_amended :
    (∀ ok : String → Bool,
      (Installer.install_loop ok Installer.servers).1 =
        (Installer.servers.filter ok).map Installer.lastComp ∧
      (Installer.install_loop ok Installer.servers).2 =
        (Installer.servers.filter (fun s => !(ok s))).map Installer.failMsg) ∧
    (∀ (ok : String → Bool) (home cwd0 : String),
      (Advanced.install_mcp_servers ok home cwd0).1 =
        (Advanced.servers.filter (fun s => ok s.package)).map (fun s => s.name)) :=
  ⟨fun ok => ⟨install_loop_fst ok Installer.servers, install_loop_snd ok Installer.servers⟩,
   fun ok _ _ => adv_install_loop_eq ok Advanced.servers⟩

/-- C6 (counterexample): the probe of `installer.py` (`check_node`) passes
no timeout to its subprocess call, and an exception other than
`FileNotFoundError` (e.g. `PermissionError` on launch) propagates to the
caller instead of yielding `false`. -/
theorem C6_probe_no_timeout :
    Installer.check_node_timeout ≠ some 30 ∧
    Installer.check_node Installer.NodeRun.otherError = Except.error "uncaught exception" :=
  ⟨by simp [Installer.check_node_timeout], rfl⟩

/-- C6 (amended): `run_command` in `advanced-setup.py` applies the 30-second
timeout and converts every exception (timeout, launch failure, anything
else) into a `false` result; `check_node` in `installer.py` applies no
timeout and converts only a missing executable into `false`. -/
theorem C6_probe_amended :
    Advanced.run_command_timeout = some 30 ∧
    (∀ (rc : Int) (out : String),
      Advanced.run_command (Advanced.Proc.completed rc out) = (rc == 0, out)) ∧
    Advanced.run_command Advanced.Proc.timedOut = (false, "") ∧
    Advanced.run_command Advanced.Proc.launchFailure = (false, "") ∧
    Advanced.run_command Advanced.Proc.otherError = (false, "") ∧
    Installer.check_node_timeout = none ∧
    (∀ rc : Int, Installer.check_node (Installer.NodeRun.completed rc) = Except.ok (rc == 0)) ∧
    Installer.check_node Installer.NodeRun.fileNotFound = Except.ok false :=
  ⟨rfl, fun _ _ => rfl, rfl, rfl, rfl, rfl, fun _ => rfl, rfl⟩

/-- C3: when no source resolves the github token, `detect_api_keys` in
`advanced-setup.py` stores `None` under a key that is always present, so
`api_keys.get("github_token", "PLACEHOLDER_GITHUB_TOKEN")` returns the
stored `None` — the dict default is unreachable — and the synthesized
descriptor carries JSON `null`, not the placeholder, as the value of
`mcpServers.github.env.GITHUB_PERSONAL_ACCESS_TOKEN`. -/
theorem C3_null_instead_of_placeholder :
    (Advanced.detect_api_keys (fun _ => none) Advanced.Proc.launchFailure
        none none none none).github_token = none ∧
    jget (Advanced.generate_claude_config ["github"] "/m" "/h" []
        (Advanced.detect_api_keys (fun _ => none) Advanced.Proc.launchFailure
          none none none none))
      ["mcpServers", "github", "env", "GITHUB_PERSONAL_ACCESS_TOKEN"] = some JVal.null :=
  ⟨rfl, rfl⟩

/-- C7: for every credential key, if some aliased environment variable is
set to a non-empty value, `detect_api_keys` resolves the key to the first
such alias's value, whatever the git-config subprocess returns and whatever
the four scanned dotfiles contain — the lower-ranked sources cannot affect
the key. -/
theorem C7_env_precedence (env : String → Option String) (gitProc : Advanced.Proc)
    (bashrc zshrc envf ghhosts : Option String) (k : Advanced.CKey) (v : String)
    (h : Advanced.envFirst env (Advanced.envAliases k) = some v) :
    (Advanced.detect_api_keys env gitProc bashrc zshrc envf ghhosts).get k = some v := by
  have hv : v ≠ "" := envFirst_ne_empty env _ v h
  have h0 : (Advanced.envStage env).get k = some v := by rw [envStage_get, h]
  have ht : Advanced.truthy ((Advanced.envStage env).get k) = true := by
    rw [h0]; exact truthy_some hv
  have h1 := gitStage_get_truthy gitProc (Advanced.envStage env) k ht
  have ht1 : Advanced.truthy
      ((Advanced.gitStage gitProc (Advanced.envStage env)).get k) = true := by
    rw [h1]; exact ht
  have h2 := foldFiles_get_truthy k [bashrc, zshrc, envf, ghhosts]
    (Advanced.gitStage gitProc (Advanced.envStage env)) ht1
  show ([bashrc, zshrc, envf, ghhosts].foldl Advanced.scanFile
    (Advanced.gitStage gitProc (Advanced.envStage env))).get k = some v
  rw [h2, h1, h0]

/-- C7 (witness): `GITHUB_TOKEN` set in the environment wins over a
successful git-config lookup and a dotfile containing a different token. -/
theorem C7_env_precedence_witness :
    (Advanced.detect_api_keys
        (fun s => if s = "GITHUB_TOKEN" then some "envtok" else none)
        (Advanced.Proc.completed 0 "gittok")
        (some "GITHUB_TOKEN=filetok\n") none none none).get
      Advanced.CKey.github_token = some "envtok" :=
  C7_env_precedence _ _ _ _ _ _ Advanced.CKey.github_token "envtok" (by decide)

/-- C9 (amended): when only the filesystem module is installed, the
descriptor of `installer.py` has exactly one entry, `mcpServers.filesystem`,
with command `node` and no `env` field; the descriptor of
`advanced-setup.py` for the same installed-set carries an `env` field
holding an empty object on that entry. -/
theorem C9_filesystem_only (env : String → Option String) (mcp home : String)
    (keys : Advanced.Keys) :
    entryNames (Installer.generate_config env home ["server-filesystem"]) = ["filesystem"] ∧
    jStr (jget (Installer.generate_config env home ["server-filesystem"])
      ["mcpServers", "filesystem", "command"]) = some "node" ∧
    jget (Installer.generate_config env home ["server-filesystem"])
      ["mcpServers", "filesystem", "env"] = none ∧
    jget (Advanced.generate_claude_config ["filesystem"] mcp home [] keys)
      ["mcpServers", "filesystem", "env"] = some (JVal.obj []) :=
  ⟨rfl, rfl, rfl, rfl⟩

/-- C9 (counterexample): in `advanced-setup.py` the filesystem entry does
carry an `env` field (an empty object), contradicting "no env field at
all". -/
theorem C9_env_field_present :
    (jget (Advanced.generate_claude_config ["filesystem"] "/m" "/h" []
        ⟨none, none, none, none⟩)
      ["mcpServers", "filesystem", "env"]).isSome = true ∧
    jget (Advanced.generate_claude_config ["filesystem"] "/m" "/h" []
        ⟨none, none, none, none⟩)
      ["mcpServers", "filesystem", "env"] = some (JVal.obj []) :=
  ⟨rfl, rfl⟩

/-- C5 (counterexample): a run of `installer.py` with Node.js present and a
single failed module install (three modules succeed, so the no-servers gate
is not taken, and no persistence error occurs in the model) exits with code
1, although the claim allows a non-zero exit only for a missing environment
or a persistence failure. -/
theorem C5_exit_counterexample :
    wC5.nodeOk = true ∧
    wC5.ok "@modelcontextprotocol/server-github" = false ∧
    (Installer.install_loop wC5.ok Installer.servers).1.length = 3 ∧
    Installer.exitCode wC5 = 1 :=
  ⟨rfl, by decide, by decide, by decide⟩

/-- C5 (amended): in `installer.py` the exit code is zero exactly when
Node.js is present and every catalog module installs successfully; any
per-module failure is logged at error level and flips the exit code to 1
(the missing-runtime and empty-install gates are special cases). -/
theorem C5_exit_amended (w : Installer.World) :
    Installer.exitCode w = 0 ↔ (w.nodeOk = true ∧ Installer.servers.all w.ok = true) := by
  cases hn : w.nodeOk <;>
    by_cases h1 : w.ok "@modelcontextprotocol/server-filesystem" = true <;>
    by_cases h2 : w.ok "@modelcontextprotocol/server-github" = true <;>
    by_cases h3 : w.ok "@modelcontextprotocol/server-brave-search" = true <;>
    by_cases h4 : w.ok "@modelcontextprotocol/server-memory" = true <;>
    simp_all [Installer.exitCode, Installer.run, Installer.install_loop, Installer.servers,
      Installer.lastComp, Installer.failMsg]

/-- C10: when Node.js is present but no module installs successfully,
`MCPInstaller.run` records the no-servers error and returns `False` before
configuration generation: the effect trace of the run contains no descriptor
write at all, and the only file created besides the module directory is the
backup copy (present exactly when a descriptor pre-existed). -/
theorem C10_no_write_on_empty_install (w : Installer.World)
    (hnode : w.nodeOk = true)
    (hfail : (Installer.install_loop w.ok Installer.servers).1 = []) :
    (Installer.run w).1 = false ∧
    Installer.noServersErr ∈ (Installer.run w).2.2 ∧
    (Installer.run w).2.1.all (fun a => !(isWriteFile a)) = true ∧
    (w.configExists = true →
      FsAction.copyFile (Installer.claude_config w.home)
        (Installer.backup_path w.home w.now) ∈ (Installer.run w).2.1) := by
  have hrun : Installer.run w =
      (false, Installer.backup_actions w ++ Installer.install_actions w,
       (Installer.install_loop w.ok Installer.servers).2 ++ [Installer.noServersErr]) := by
    unfold Installer.run
    rw [hnode]
    simp [hfail]
  refine ⟨by rw [hrun], by rw [hrun]; simp, ?_, ?_⟩
  · rw [hrun]
    cases hc : w.configExists <;> cases hp : w.pkgJsonExists <;>
      simp [Installer.backup_actions, Installer.install_actions, hc, hp,
        Installer.servers, isWriteFile]
  · intro hc
    rw [hrun]
    simp [Installer.backup_actions, hc]

/-- C10 (witness): concrete run with a pre-existing descriptor and all four
installs failing. -/
theorem C10_no_write_witness :
    (Installer.run wC10).1 = false ∧
    Installer.noServersErr ∈ (Installer.run wC10).2.2 ∧
    (Installer.run wC10).2.1.all (fun a => !(isWriteFile a)) = true ∧
    (wC10.configExists = true →
      FsAction.copyFile (Installer.claude_config wC10.home)
        (Installer.backup_path wC10.home wC10.now) ∈ (Installer.run wC10).2.1) :=
  C10_no_write_on_empty_install wC10 rfl rfl

/-- C8 (counterexample): with one detected project, the advanced descriptor
contains the entry `project-alpha`, which is not in the installed-set and is
no module of the catalog at all. -/
theorem C8_project_entry :
    entryNames (Advanced.generate_claude_config ["filesystem"] "/m" "/h" ["/p/alpha"]
      ⟨none, none, none, none⟩) = ["filesystem", "project-alpha"] ∧
    (["filesystem"] : List String).contains "project-alpha" = false ∧
    (Advanced.servers.map (fun s => s.name)).contains "project-alpha" = false := by
  refine ⟨by decide, by decide, by decide⟩

/-- C8 (amended): the entries of the advanced descriptor are the installed
modules that have a launch template, in the order of the installed sequence
(which is catalog order when produced by the installer), followed — when at
least one project was detected and the filesystem module is installed — by
one `project-<name>` entry per detected project (at most three). -/
theorem C8_entries_amended (installed projects : List String) (mcp home : String)
    (keys : Advanced.Keys)
    (hnd : (installed.filter
        (fun s => (jlook s (Advanced.server_configs mcp home keys)).isSome) ++
      (projects.take 3).map (fun p => "project-" ++ Advanced.pathName p)).Nodup) :
    entryNames (Advanced.generate_claude_config installed mcp home projects keys) =
      installed.filter
        (fun s => (jlook s (Advanced.server_configs mcp home keys)).isSome) ++
      (if (!projects.isEmpty) && installed.contains "filesystem" then
        (projects.take 3).map (fun p => "project-" ++ Advanced.pathName p)
      else []) := by
  have hbase : (Advanced.addInstalled (Advanced.server_configs mcp home keys)
      installed []).map Prod.fst =
      installed.filter (fun s => (jlook s (Advanced.server_configs mcp home keys)).isSome) := by
    have h := addInstalled_map (Advanced.server_configs mcp home keys) installed []
      (by simpa using hnd.of_append_left)
    simpa using h
  have hmain : entryNames (Advanced.generate_claude_config installed mcp home projects keys) =
      (if (!projects.isEmpty) && installed.contains "filesystem" then
        Advanced.addProjects mcp (projects.take 3)
          (Advanced.addInstalled (Advanced.server_configs mcp home keys) installed [])
      else Advanced.addInstalled (Advanced.server_configs mcp home keys)
        installed []).map Prod.fst := by
    unfold Advanced.generate_claude_config entryNames
    simp [jget, jlook]
  rw [hmain]
  by_cases hg : ((!projects.isEmpty) && installed.contains "filesystem") = true
  · simp only [hg, if_true]
    rw [addProjects_map mcp (projects.take 3) _ (by rw [hbase]; exact hnd), hbase]
  · rw [Bool.not_eq_true] at hg
    simp only [hg, Bool.false_eq_true, if_false]
    rw [hbase, List.append_nil]

/-- C8 (witness): two installed modules and one detected project. -/
theorem C8_entries_witness :
    entryNames (Advanced.generate_claude_config ["filesystem", "github"] "/m" "/h"
      ["/p/alpha"] ⟨none, none, none, none⟩) = ["filesystem", "github", "project-alpha"] := by
  have h := C8_entries_amended ["filesystem", "github"] ["/p/alpha"] "/m" "/h"
    ⟨none, none, none, none⟩ (by decide)
  rw [h]
  decide
